import Mathlib

/-!
Shallow embedding of the SME financial-health backend, `src/app.py`,
endpoint `analyze_financials` (the ledger analysis pipeline), together with
proofs of the specified properties.

Modelling conventions:
* amounts are rationals (`ℚ`), mirroring the exact arithmetic of the
  aggregation formulas;
* the external parsers (pandas `read_csv` / `read_excel`, pdfplumber,
  `pd.to_numeric`, `pd.to_datetime`) are modelled by their outcome on each
  cell: an amount cell is either a number or non-numeric, a date cell is
  either a parsed calendar date or unparsable;
* a Python exception that escapes the endpoint (e.g. a `KeyError` from a
  missing dataframe column) is an `Except.error`; a value returned by the
  endpoint (a JSON body) is an `Except.ok`.
-/

namespace SME

/-- Outcome of `pd.to_numeric(cell, errors="coerce")` on one `amount` cell:
a number, or a non-numeric/missing cell (`NaN`, later `fillna(0)`). -/
inductive AmountCell
  | num (q : ℚ)
  | nonNumeric
deriving DecidableEq

/-- Outcome of `pd.to_datetime` on one `date` cell: a parsed calendar date
(year, month, day), or an unparsable cell, which makes `pd.to_datetime`
raise for the whole request. -/
inductive DateCell
  | parsed (y m d : ℕ)
  | unparsable
deriving DecidableEq

/-- One raw row of the extracted table, restricted to the columns the
pipeline analyzes.  (`industry` and `category` are only persisted to the
database, never used by the metrics, so they are not modelled.) -/
structure RawRow where
  date : DateCell
  type : String
  amount : AmountCell
deriving DecidableEq

/-- The extracted raw table: which of the analyzed columns are present in
the header, plus the ordered rows. -/
structure Table where
  hasDate : Bool
  hasType : Bool
  hasAmount : Bool
  rows : List RawRow

/-- The request input: the uploaded filename (its lowercased extension
selects the extraction strategy, lines 41-56 of `app.py`) and the table the
extractor would produce from the bytes. -/
structure Input where
  filename : String
  table : Table

/-- A Python exception escaping the endpoint: an unhandled fault (HTTP 500),
not a structured response body. -/
inductive PyError
  | keyError (col : String)
  | invalidDate
deriving DecidableEq

/-- Python `str.lower()`: lower-case every character. -/
def pyLower (s : String) : String := String.mk (s.data.map Char.toLower)

/-- Helper for `pyStrip`: drop whitespace from both ends of a character
list. -/
def stripL (l : List Char) : List Char :=
  ((l.dropWhile Char.isWhitespace).reverse.dropWhile Char.isWhitespace).reverse

/-- Python `str.strip()`: remove leading and trailing whitespace. -/
def pyStrip (s : String) : String := String.mk (stripL s.data)

/-- Python `str.endswith(suffix)`. -/
def pyEndsWith (s suffix : String) : Bool := suffix.data.isSuffixOf s.data

/-- A normalized transaction as consumed by the metrics engine: the month
key of `date.dt.to_period("M")`, encoded as `year * 100 + month`, which is
ordered exactly like the zero-padded `"YYYY-MM"` strings pandas sorts group
keys by; the lower-cased and trimmed `type`; and the coerced `amount`. -/
structure Tx where
  month : ℕ
  type : String
  amount : ℚ
deriving DecidableEq

/-- `date.dt.to_period("M")`: truncate the parsed date to its year-month. -/
def DateCell.monthKey : DateCell → ℕ
  | .parsed y m _ => y * 100 + m
  | .unparsable => 0

/-- `pd.to_numeric(..., errors="coerce").fillna(0)`: non-numeric cells
become `0`. -/
def AmountCell.coerce : AmountCell → ℚ
  | .num q => q
  | .nonNumeric => 0

/-- Lines 59-61 of `app.py`, the row-normalization block, in source order:
`df["amount"]` (a missing column raises `KeyError("amount")`), then
`df["type"].str.lower().str.strip()` (missing column raises
`KeyError("type")`), then `pd.to_datetime(df["date"])` (missing column
raises `KeyError("date")`; any unparsable cell raises a date-parse error
for the whole request). -/
def normalizeRows (t : Table) : Except PyError (List Tx) :=
  if !t.hasAmount then .error (.keyError "amount")
  else if !t.hasType then .error (.keyError "type")
  else if !t.hasDate then .error (.keyError "date")
  else if t.rows.any (fun r => decide (r.date = DateCell.unparsable)) then
    .error .invalidDate
  else .ok (t.rows.map fun r =>
    { month := r.date.monthKey
      type := pyStrip (pyLower r.type)
      amount := r.amount.coerce })

/-- One monthly cashflow bucket, a record of
`monthly.reset_index().to_dict(orient="records")`. -/
structure Bucket where
  month : ℕ
  income : ℚ
  expense : ℚ
  cashflow : ℚ
deriving DecidableEq

/-- The `loan` dict built on lines 108-115 of `app.py`. -/
structure Loan where
  eligible : String
  recommended_amount : ℤ
  tenure_months : ℕ
  interest_rate_estimate : String
  risk_level : String
  confidence_score : ℕ
deriving DecidableEq

/-- The analysis result returned on success: the `investor_metrics` fields,
the sorted monthly cashflow buckets, and the loan recommendation.  (The
`ai_summary` strings are fixed templates over `total_income`, `net_profit`
and `eligible` and carry no further information.) -/
structure AnalysisResult where
  total_income : ℚ
  total_expense : ℚ
  net_profit : ℚ
  profit_margin_percent : ℚ
  credit_score : ℕ
  monthly_cashflow : List Bucket
  loan_recommendation : Loan
deriving DecidableEq

/-- A JSON body returned by the endpoint: either the structured error dict
(`return {"error": "Unsupported file format"}`, line 56) or the full
result dict. -/
inductive Response
  | errorDict (msg : String)
  | result (r : AnalysisResult)
deriving DecidableEq

/-- Python `round` to the nearest integer, ties to even. -/
def roundHalfEven (q : ℚ) : ℤ :=
  if q - ⌊q⌋ < 1 / 2 then ⌊q⌋
  else if 1 / 2 < q - ⌊q⌋ then ⌊q⌋ + 1
  else if ⌊q⌋ % 2 = 0 then ⌊q⌋ else ⌊q⌋ + 1

/-- Python `round(x, 2)`. -/
def round2 (q : ℚ) : ℚ := (roundHalfEven (q * 100) : ℚ) / 100

/-- Python `int()` applied to a number: truncation toward zero. -/
def pyInt (q : ℚ) : ℤ := if 0 ≤ q then ⌊q⌋ else ⌈q⌉

/-- Sum of `amount` over the rows selected by `p`. -/
def sumAmounts (txs : List Tx) (p : Tx → Bool) : ℚ :=
  ((txs.filter p).map Tx.amount).sum

/-- Line 77: `total_income = df[df["type"] == "income"]["amount"].sum()`. -/
def totalIncome (txs : List Tx) : ℚ :=
  sumAmounts txs (fun t => t.type == "income")

/-- Line 78: `total_expense = df[df["type"] == "expense"]["amount"].sum()`. -/
def totalExpense (txs : List Tx) : ℚ :=
  sumAmounts txs (fun t => t.type == "expense")

/-- Line 79: `net_profit = total_income - total_expense`. -/
def netProfit (txs : List Tx) : ℚ := totalIncome txs - totalExpense txs

/-- Line 80: `profit_margin = round((net_profit / total_income) * 100, 2)
if total_income > 0 else 0`. -/
def profitMargin (txs : List Tx) : ℚ :=
  if 0 < totalIncome txs then round2 (netProfit txs / totalIncome txs * 100)
  else 0

/-- The distinct month keys of the batch, in ascending order: the group
keys of `df.groupby(["month", "type"])` after `unstack()`, which pandas
sorts ascending (`sort=True` default); sorting the `"YYYY-MM"` strings
agrees with sorting the numeric keys. -/
def monthsOf (txs : List Tx) : List ℕ :=
  List.insertionSort (· ≤ ·) (txs.map Tx.month).dedup

/-- The `income` cell of month `m` after `unstack().fillna(0)`: the summed
amount of the income transactions of that month (0 if there are none). -/
def bucketIncome (txs : List Tx) (m : ℕ) : ℚ :=
  sumAmounts txs (fun t => t.type == "income" && t.month == m)

/-- The `expense` cell of month `m` after `unstack().fillna(0)`. -/
def bucketExpense (txs : List Tx) (m : ℕ) : ℚ :=
  sumAmounts txs (fun t => t.type == "expense" && t.month == m)

/-- Lines 99-101: one output record per month group;
`cashflow = monthly.get("income", 0) - monthly.get("expense", 0)`, which
per month equals the income sum minus the expense sum (a type column that
is absent altogether contributes the scalar `0`, matching the empty sum). -/
def mkBucket (txs : List Tx) (m : ℕ) : Bucket :=
  { month := m
    income := bucketIncome txs m
    expense := bucketExpense txs m
    cashflow := bucketIncome txs m - bucketExpense txs m }

/-- Line 125: `monthly.reset_index().to_dict(orient="records")`, rows in
ascending month-key order. -/
def monthlyCashflow (txs : List Tx) : List Bucket :=
  (monthsOf txs).map (mkBucket txs)

/-- Lines 83-88: the risk tier. -/
def risk (np pm : ℚ) : String :=
  if np ≤ 0 then "HIGH" else if pm < 5 then "MEDIUM" else "LOW"

/-- Lines 91-96: base 50, `+20` if `net_profit > 0`, `+15` if
`profit_margin > 10`, capped with `min(100, credit)`. -/
def credit (np pm : ℚ) : ℕ :=
  min 100 (50 + (if 0 < np then 20 else 0) + (if 10 < pm then 15 else 0))

/-- Line 104: `"YES" if credit >= 75 else "MAYBE" if credit >= 55 else
"NO"`. -/
def eligibility (c : ℕ) : String :=
  if 75 ≤ c then "YES" else if 55 ≤ c then "MAYBE" else "NO"

/-- Line 106: `12 if risk == "LOW" else 6 if risk == "MEDIUM" else 3`. -/
def multiplier (r : String) : ℕ :=
  if r = "LOW" then 12 else if r = "MEDIUM" then 6 else 3

/-- Lines 104-115: the loan recommendation.
`avg_profit = net_profit / max(len(monthly), 1)`. -/
def loanOf (txs : List Tx) : Loan :=
  let np := netProfit txs
  let pm := profitMargin txs
  let r := risk np pm
  let c := credit np pm
  let e := eligibility c
  let avg := np / ((max (monthlyCashflow txs).length 1 : ℕ) : ℚ)
  { eligible := e
    recommended_amount :=
      if e ≠ "NO" then pyInt (avg * ((multiplier r : ℕ) : ℚ)) else 0
    tenure_months := if r = "LOW" then 24 else 18
    interest_rate_estimate := if r = "LOW" then "10–12%" else "13–16%"
    risk_level := r
    confidence_score := c }

/-- The metrics and scoring engines over a normalized batch: the success
payload of the endpoint (lines 77-132). -/
def analyzeTxs (txs : List Tx) : AnalysisResult :=
  { total_income := totalIncome txs
    total_expense := totalExpense txs
    net_profit := netProfit txs
    profit_margin_percent := profitMargin txs
    credit_score := credit (netProfit txs) (profitMargin txs)
    monthly_cashflow := monthlyCashflow txs
    loan_recommendation := loanOf txs }

/-- Lines 41-55: the extraction strategy is selected on the lowercased
filename extension; `.csv`, `.xlsx`, `.pdf` are supported. -/
def supportedFile (filename : String) : Bool :=
  pyEndsWith (pyLower filename) ".csv" || pyEndsWith (pyLower filename) ".xlsx"
    || pyEndsWith (pyLower filename) ".pdf"

/-- The whole endpoint: unsupported extensions return the structured error
dict (line 56); otherwise the extracted table is normalized (exceptions
propagate unhandled) and the analysis result is returned. -/
def analyze (inp : Input) : Except PyError Response :=
  if supportedFile inp.filename then
    match normalizeRows inp.table with
    | .error e => .error e
    | .ok txs => .ok (.result (analyzeTxs txs))
  else
    .ok (.errorDict "Unsupported file format")

/-! ### Concrete example inputs, used as witnesses and counterexamples -/

/-- A batch with a single negative income transaction. -/
def batchNeg : List Tx := [{ month := 202401, type := "income", amount := -50 }]

/-- A batch with a single positive income transaction. -/
def batchPos : List Tx := [{ month := 202401, type := "income", amount := 100 }]

/-- A batch whose earlier month contains only a transaction of
unrecognized type. -/
def batchMix : List Tx :=
  [{ month := 202401, type := "income", amount := 10 },
   { month := 202312, type := "refund", amount := 7 }]

/-- A well-formed raw row. -/
def rowA : RawRow := { date := .parsed 2024 1 15, type := "Income ", amount := .num 100 }

/-- A second well-formed raw row. -/
def rowB : RawRow := { date := .parsed 2024 2 3, type := "expense", amount := .num 40 }

/-- A csv upload whose extracted table has no `date` column. -/
def inputNoDate : Input :=
  { filename := "ledger.csv", table := { hasDate := false, hasType := true, hasAmount := true, rows := [rowA] } }

/-- A csv upload whose extracted table has no `type` column. -/
def inputNoType : Input :=
  { filename := "ledger.csv", table := { hasDate := true, hasType := false, hasAmount := true, rows := [rowA] } }

/-- A csv upload with an unparsable `date` cell. -/
def inputBadDate : Input :=
  { filename := "ledger.csv",
    table := { hasDate := true, hasType := true, hasAmount := true,
               rows := [{ date := .unparsable, type := "income", amount := .num 5 }] } }

/-- An upload with an unsupported extension. -/
def inputDocx : Input :=
  { filename := "Report.docx", table := { hasDate := true, hasType := true, hasAmount := true, rows := [rowA] } }

/-! ### Helper lemmas -/

theorem sumAmounts_nil (p : Tx → Bool) : sumAmounts [] p = 0 := rfl

theorem sumAmounts_cons (t : Tx) (txs : List Tx) (p : Tx → Bool) :
    sumAmounts (t :: txs) p = (if p t then t.amount else 0) + sumAmounts txs p := by
  cases h : p t <;> simp [sumAmounts, List.filter_cons, h]

theorem sumAmounts_eq_zero {txs : List Tx} {p : Tx → Bool}
    (h : ∀ t ∈ txs, p t = false) : sumAmounts txs p = 0 := by
  unfold sumAmounts
  rw [List.filter_eq_nil_iff.mpr (fun t ht => by simp [h t ht])]
  rfl

theorem sumAmounts_perm {txs txs' : List Tx} (h : List.Perm txs txs') (p : Tx → Bool) :
    sumAmounts txs p = sumAmounts txs' p :=
  ((h.filter p).map Tx.amount).sum_eq

theorem roundHalfEven_nonpos {q : ℚ} (h : q ≤ 0) : roundHalfEven q ≤ 0 := by
  have hf : ⌊q⌋ ≤ 0 := Int.floor_nonpos h
  have key : 1 / 2 ≤ q - (⌊q⌋ : ℚ) → ⌊q⌋ + 1 ≤ 0 := by
    intro h2
    have hc : (⌊q⌋ : ℚ) < 0 := by linarith
    have : ⌊q⌋ < 0 := by exact_mod_cast hc
    omega
  unfold roundHalfEven
  split
  · exact hf
  · next h1 =>
    split
    · next h2 => exact key (by linarith)
    · split
      · exact hf
      · exact key (by linarith)

theorem round2_nonpos {q : ℚ} (h : q ≤ 0) : round2 q ≤ 0 := by
  have h1 : roundHalfEven (q * 100) ≤ 0 := roundHalfEven_nonpos (by linarith)
  have h2 : ((roundHalfEven (q * 100) : ℤ) : ℚ) ≤ 0 := by exact_mod_cast h1
  unfold round2
  linarith

theorem profitMargin_nonpos_of_netProfit_nonpos {txs : List Tx}
    (h : netProfit txs ≤ 0) : profitMargin txs ≤ 0 := by
  unfold profitMargin
  split
  · next hpos =>
    apply round2_nonpos
    have hdiv : netProfit txs / totalIncome txs ≤ 0 :=
      div_nonpos_iff.mpr (Or.inr ⟨h, hpos.le⟩)
    linarith
  · exact le_refl 0

theorem netProfit_pos_of_margin_gt_ten {txs : List Tx}
    (h : 10 < profitMargin txs) : 0 < netProfit txs := by
  by_contra hc
  push_neg at hc
  have := profitMargin_nonpos_of_netProfit_nonpos hc
  linarith

theorem credit_eq (np pm : ℚ) :
    credit np pm = 50 + (if 0 < np then 20 else 0) + (if 10 < pm then 15 else 0) := by
  unfold credit
  split_ifs <;> rfl

theorem credit_bounds (np pm : ℚ) : 50 ≤ credit np pm ∧ credit np pm ≤ 100 := by
  rw [credit_eq]
  split_ifs <;> omega

theorem credit_mono_np {np np' : ℚ} (pm : ℚ) (h : np ≤ np') :
    credit np pm ≤ credit np' pm := by
  rw [credit_eq, credit_eq]
  have h20 : (if 0 < np then (20 : ℕ) else 0) ≤ if 0 < np' then 20 else 0 := by
    split_ifs with h1 h2
    · exact le_refl _
    · exact absurd (h1.trans_le h) h2
    · omega
    · exact le_refl _
  omega

theorem credit_mono_pm (np : ℚ) {pm pm' : ℚ} (h : pm ≤ pm') :
    credit np pm ≤ credit np pm' := by
  rw [credit_eq, credit_eq]
  have h15 : (if 10 < pm then (15 : ℕ) else 0) ≤ if 10 < pm' then 15 else 0 := by
    split_ifs with h1 h2
    · exact le_refl _
    · exact absurd (h1.trans_le h) h2
    · omega
    · exact le_refl _
  omega

theorem credit_cases (np pm : ℚ) (h : 10 < pm → 0 < np) :
    credit np pm = 50 ∨ credit np pm = 70 ∨ credit np pm = 85 := by
  rw [credit_eq]
  split_ifs with h1 h2 h2
  · right; right; rfl
  · right; left; rfl
  · exact absurd (h h2) h1
  · left; rfl

theorem monthsOf_perm_dedup (txs : List Tx) :
    List.Perm (monthsOf txs) (txs.map Tx.month).dedup :=
  List.perm_insertionSort _ _

theorem monthsOf_nodup (txs : List Tx) : (monthsOf txs).Nodup :=
  (monthsOf_perm_dedup txs).nodup_iff.mpr (List.nodup_dedup _)

theorem monthsOf_sorted_le (txs : List Tx) :
    List.Sorted (· ≤ ·) (monthsOf txs) :=
  List.sorted_insertionSort _ _

theorem monthsOf_sorted_lt (txs : List Tx) :
    List.Sorted (· < ·) (monthsOf txs) :=
  (monthsOf_sorted_le txs).lt_of_le (monthsOf_nodup txs)

theorem mem_monthsOf {m : ℕ} {txs : List Tx} :
    m ∈ monthsOf txs ↔ ∃ t ∈ txs, t.month = m := by
  rw [(monthsOf_perm_dedup txs).mem_iff, List.mem_dedup, List.mem_map]

theorem monthsOf_perm {txs txs' : List Tx} (h : List.Perm txs txs') :
    monthsOf txs = monthsOf txs' :=
  List.eq_of_perm_of_sorted
    ((monthsOf_perm_dedup txs).trans
      (((h.map Tx.month).dedup).trans (monthsOf_perm_dedup txs').symm))
    (monthsOf_sorted_le txs) (monthsOf_sorted_le txs')

theorem sum_if_eq (ms : List ℕ) (m : ℕ) (a : ℚ) (hnd : ms.Nodup) (hm : m ∈ ms) :
    (ms.map (fun x => if m = x then a else 0)).sum = a := by
  induction ms with
  | nil => cases hm
  | cons x xs ih =>
    rcases List.nodup_cons.mp hnd with ⟨hx, hxs⟩
    rcases List.mem_cons.mp hm with rfl | hm'
    · have hz : ∀ q ∈ xs.map (fun x => if m = x then a else 0), q = 0 := by
        intro q hq
        rcases List.mem_map.mp hq with ⟨y, hy, rfl⟩
        exact if_neg (by rintro rfl; exact hx hy)
      simp [List.map_cons, List.sum_cons, List.sum_eq_zero hz]
    · have hxm : ¬m = x := by rintro rfl; exact hx hm'
      simp only [List.map_cons, List.sum_cons, if_neg hxm, zero_add]
      exact ih hxs hm'

theorem sumAmounts_byMonth (txs : List Tx) (p : Tx → Bool) (ms : List ℕ)
    (hnd : ms.Nodup) (hcov : ∀ t ∈ txs, t.month ∈ ms) :
    (ms.map (fun m => sumAmounts txs (fun t => p t && t.month == m))).sum
      = sumAmounts txs p := by
  induction txs with
  | nil =>
    simp only [sumAmounts_nil]
    simp
  | cons t rest ih =>
    have hrest : ∀ x ∈ rest, x.month ∈ ms := fun x hx =>
      hcov x (List.mem_cons_of_mem _ hx)
    have hmem : t.month ∈ ms := hcov t (List.mem_cons_self _ _)
    have hsplit : ∀ m, sumAmounts (t :: rest) (fun x => p x && x.month == m)
        = (if p t && t.month == m then t.amount else 0)
          + sumAmounts rest (fun x => p x && x.month == m) :=
      fun m => sumAmounts_cons t rest _
    calc (ms.map (fun m => sumAmounts (t :: rest) (fun x => p x && x.month == m))).sum
        = (ms.map (fun m => (if p t && t.month == m then t.amount else 0)
            + sumAmounts rest (fun x => p x && x.month == m))).sum := by
          rw [List.map_congr_left (fun m _ => hsplit m)]
      _ = (ms.map (fun m => if p t && t.month == m then t.amount else 0)).sum
            + (ms.map (fun m => sumAmounts rest (fun x => p x && x.month == m))).sum := by
          rw [List.sum_map_add]
      _ = (if p t then t.amount else 0) + sumAmounts rest p := by
          rw [ih hrest]
          congr 1
          cases hp : p t with
          | false =>
            simp only [hp, Bool.false_and, if_false]
            exact List.sum_eq_zero (by
              intro q hq
              rcases List.mem_map.mp hq with ⟨y, _, rfl⟩
              rfl)
          | true =>
            simp only [hp, Bool.true_and, if_true]
            have : (ms.map (fun m => if (t.month == m) = true then t.amount else 0))
                = ms.map (fun m => if t.month = m then t.amount else 0) := by
              apply List.map_congr_left
              intro m _
              simp [beq_iff_eq]
            rw [this]
            exact sum_if_eq ms t.month t.amount hnd hmem
      _ = sumAmounts (t :: rest) p := (sumAmounts_cons t rest p).symm

theorem sum_bucketIncome (txs : List Tx) :
    ((monthlyCashflow txs).map Bucket.income).sum = totalIncome txs := by
  unfold monthlyCashflow totalIncome
  rw [List.map_map]
  exact sumAmounts_byMonth txs _ (monthsOf txs) (monthsOf_nodup txs)
    (fun t ht => mem_monthsOf.mpr ⟨t, ht, rfl⟩)

theorem sum_bucketExpense (txs : List Tx) :
    ((monthlyCashflow txs).map Bucket.expense).sum = totalExpense txs := by
  unfold monthlyCashflow totalExpense
  rw [List.map_map]
  exact sumAmounts_byMonth txs _ (monthsOf txs) (monthsOf_nodup txs)
    (fun t ht => mem_monthsOf.mpr ⟨t, ht, rfl⟩)

theorem list_any_perm {α : Type} {l₁ l₂ : List α} (h : List.Perm l₁ l₂)
    (f : α → Bool) : l₁.any f = l₂.any f := by
  rw [Bool.eq_iff_iff, List.any_eq_true, List.any_eq_true]
  constructor <;> rintro ⟨x, hx, hfx⟩
  · exact ⟨x, h.mem_iff.mp hx, hfx⟩
  · exact ⟨x, h.mem_iff.mpr hx, hfx⟩

theorem analyzeTxs_perm {txs txs' : List Tx} (h : List.Perm txs txs') :
    analyzeTxs txs = analyzeTxs txs' := by
  have hsum : ∀ p, sumAmounts txs p = sumAmounts txs' p := sumAmounts_perm h
  have hti : totalIncome txs = totalIncome txs' := hsum _
  have hte : totalExpense txs = totalExpense txs' := hsum _
  have hnp : netProfit txs = netProfit txs' := by unfold netProfit; rw [hti, hte]
  have hpm : profitMargin txs = profitMargin txs' := by
    unfold profitMargin; rw [hti, hnp]
  have hms : monthsOf txs = monthsOf txs' := monthsOf_perm h
  have hmc : monthlyCashflow txs = monthlyCashflow txs' := by
    unfold monthlyCashflow
    rw [hms]
    exact List.map_congr_left fun m _ => by
      unfold mkBucket bucketIncome bucketExpense
      rw [hsum _, hsum _]
  have hloan : loanOf txs = loanOf txs' := by
    unfold loanOf
    rw [hnp, hpm, hmc]
  unfold analyzeTxs
  rw [hti, hte, hnp, hpm, hmc, hloan]

theorem analyze_rows_perm (f : String) (hD hT hA : Bool)
    {rows rows' : List RawRow} (h : List.Perm rows rows') :
    analyze ⟨f, ⟨hD, hT, hA, rows⟩⟩ = analyze ⟨f, ⟨hD, hT, hA, rows'⟩⟩ := by
  have hany := list_any_perm h (fun r => decide (r.date = DateCell.unparsable))
  have hmap := analyzeTxs_perm (h.map fun r =>
    ({ month := r.date.monthKey
       type := pyStrip (pyLower r.type)
       amount := r.amount.coerce } : Tx))
  by_cases hs : supportedFile f
  · by_cases hd : (rows'.any fun r => decide (r.date = DateCell.unparsable)) = true
    · cases hA <;> cases hT <;> cases hD <;>
        simp [analyze, normalizeRows, hs, hany, hd, hmap]
    · cases hA <;> cases hT <;> cases hD <;>
        simp [analyze, normalizeRows, hs, hany, hd, hmap]
  · simp [analyze, hs]

theorem eligibility_ne_no {c : ℕ} (h : eligibility c ≠ "NO") : 55 ≤ c := by
  unfold eligibility at h
  split_ifs at h with h1 h2
  · omega
  · exact h2
  · exact absurd rfl h

theorem multiplier_pos (r : String) : 0 < multiplier r := by
  unfold multiplier
  split_ifs <;> omega

theorem netProfit_pos_of_not_no {txs : List Tx}
    (h : eligibility (credit (netProfit txs) (profitMargin txs)) ≠ "NO") :
    0 < netProfit txs := by
  have h55 := eligibility_ne_no h
  rw [credit_eq] at h55
  by_contra hc
  push_neg at hc
  have hpm : ¬10 < profitMargin txs := by
    have := profitMargin_nonpos_of_netProfit_nonpos hc
    linarith
  rw [if_neg (not_lt.mpr hc), if_neg hpm] at h55
  omega

/-! ### Claim theorems -/

/-- C1 (corrected): on a supported upload whose extracted table lacks the
`date` column (with `amount` and `type` present), the request fails by
raising `KeyError("date")`; lacking `type` (with `amount` present) it
raises `KeyError("type")`; an unparsable `date` cell (all columns present)
raises a date-parse error.  In every case the endpoint produces no result at
all — but the failure is an unhandled exception, not a structured
`MissingColumn`/`InvalidDate` error value. -/
theorem C1_missing_or_invalid_raises (f : String) (rows : List RawRow)
    (hs : supportedFile f = true) :
    analyze ⟨f, ⟨false, true, true, rows⟩⟩ = .error (.keyError "date") ∧
    (∀ hD : Bool, analyze ⟨f, ⟨hD, false, true, rows⟩⟩ = .error (.keyError "type")) ∧
    ((∃ r ∈ rows, r.date = DateCell.unparsable) →
      analyze ⟨f, ⟨true, true, true, rows⟩⟩ = .error .invalidDate) := by
  refine ⟨?_, ?_, ?_⟩
  · simp [analyze, normalizeRows, hs]
  · intro hD
    simp [analyze, normalizeRows, hs]
  · rintro ⟨r, hr, hdate⟩
    have hany : (rows.any fun r => decide (r.date = DateCell.unparsable)) = true :=
      List.any_eq_true.mpr ⟨r, hr, by simp [hdate]⟩
    simp [analyze, normalizeRows, hs, hany]

/-- C1 witness: the three failure modes at concrete inputs. -/
theorem C1_missing_or_invalid_raises_witness :
    supportedFile "ledger.csv" = true ∧
    analyze inputNoDate = .error (.keyError "date") ∧
    analyze inputNoType = .error (.keyError "type") ∧
    analyze inputBadDate = .error .invalidDate := by
  have hs : supportedFile "ledger.csv" = true := by decide
  refine ⟨hs, ?_, ?_, ?_⟩
  · exact (C1_missing_or_invalid_raises "ledger.csv" [rowA] hs).1
  · exact (C1_missing_or_invalid_raises "ledger.csv" [rowA] hs).2.1 true
  · exact (C1_missing_or_invalid_raises "ledger.csv" _ hs).2.2
      ⟨_, List.mem_cons_self _ _, rfl⟩

/-- C1 counterexample: for the concrete upload `inputNoDate` (csv, no
`date` column) the endpoint raises `KeyError("date")` — it does not return
any value, in particular not a structured `MissingColumn("date")` error
response. -/
theorem C1_counterexample :
    analyze inputNoDate = .error (.keyError "date") ∧
    (analyze inputNoDate).isOk = false := by
  constructor
  · rfl
  · rfl

/-- C2: `profit_margin_percent` equals
`round(net_profit / total_income * 100, 2)` when `total_income > 0` and `0`
otherwise; in particular it is `0` whenever `total_income ≤ 0`. -/
theorem C2_profit_margin_formula (txs : List Tx) :
    (analyzeTxs txs).profit_margin_percent
        = (if 0 < (analyzeTxs txs).total_income then
            round2 ((analyzeTxs txs).net_profit / (analyzeTxs txs).total_income * 100)
          else 0) ∧
    ((analyzeTxs txs).total_income ≤ 0 → (analyzeTxs txs).profit_margin_percent = 0) := by
  constructor
  · rfl
  · intro h
    have h' : totalIncome txs ≤ 0 := h
    show profitMargin txs = 0
    unfold profitMargin
    rw [if_neg (not_lt.mpr h')]

/-- C2 witness: the negative-income batch has `total_income = -50 ≤ 0` and
margin `0`. -/
theorem C2_profit_margin_formula_witness :
    (analyzeTxs batchNeg).total_income ≤ 0 ∧
    (analyzeTxs batchNeg).profit_margin_percent = 0 := by
  have h : (analyzeTxs batchNeg).total_income ≤ 0 := by
    show totalIncome batchNeg ≤ 0
    simp [totalIncome, sumAmounts, batchNeg, List.filter]
  exact ⟨h, (C2_profit_margin_formula batchNeg).2 h⟩

/-- C3: the credit score always lies in `[50, 100]`, and the scoring rule
of lines 91-96 is monotone non-decreasing in `net_profit` with the margin
fixed and in `profit_margin_percent` with the profit fixed; the pipeline
score is exactly that rule applied to the computed metrics. -/
theorem C3_credit_bounds_monotone :
    (∀ txs : List Tx,
      50 ≤ (analyzeTxs txs).credit_score ∧ (analyzeTxs txs).credit_score ≤ 100) ∧
    (∀ np np' pm : ℚ, np ≤ np' → credit np pm ≤ credit np' pm) ∧
    (∀ np pm pm' : ℚ, pm ≤ pm' → credit np pm ≤ credit np pm') ∧
    (∀ txs : List Tx, (analyzeTxs txs).credit_score
        = credit (analyzeTxs txs).net_profit (analyzeTxs txs).profit_margin_percent) :=
  ⟨fun _ => credit_bounds _ _, fun _ _ pm h => credit_mono_np pm h,
   fun np _ _ h => credit_mono_pm np h, fun _ => rfl⟩

/-- C3 witness: bounds and both monotonicity conclusions at concrete
points. -/
theorem C3_credit_bounds_monotone_witness :
    credit 0 0 ≤ credit 1 0 ∧ credit 1 0 ≤ credit 1 20 ∧
    50 ≤ (analyzeTxs []).credit_score :=
  ⟨C3_credit_bounds_monotone.2.1 0 1 0 (by norm_num),
   C3_credit_bounds_monotone.2.2.1 1 0 20 (by norm_num),
   (C3_credit_bounds_monotone.1 []).1⟩

/-- C4: `net_profit = total_income - total_expense` exactly, and the
monthly buckets partition the totals: summed bucket `income` equals
`total_income` and summed bucket `expense` equals `total_expense`. -/
theorem C4_totals_conservation (txs : List Tx) :
    (analyzeTxs txs).net_profit
        = (analyzeTxs txs).total_income - (analyzeTxs txs).total_expense ∧
    ((analyzeTxs txs).monthly_cashflow.map Bucket.income).sum
        = (analyzeTxs txs).total_income ∧
    ((analyzeTxs txs).monthly_cashflow.map Bucket.expense).sum
        = (analyzeTxs txs).total_expense :=
  ⟨rfl, sum_bucketIncome txs, sum_bucketExpense txs⟩

/-- C7: an upload whose lowercased filename has an unsupported extension is
answered with the structured error dict, not an exception. -/
theorem C7_unsupported_format (inp : Input)
    (h : supportedFile inp.filename = false) :
    analyze inp = .ok (.errorDict "Unsupported file format") := by
  simp [analyze, h]

/-- C7 witness: a `.docx` upload gets the structured error response. -/
theorem C7_unsupported_format_witness :
    supportedFile inputDocx.filename = false ∧
    analyze inputDocx = .ok (.errorDict "Unsupported file format") := by
  have h : supportedFile inputDocx.filename = false := by decide
  exact ⟨h, C7_unsupported_format inputDocx h⟩

/-- C8: permuting the rows of the extracted table leaves the entire
response of the endpoint unchanged — every aggregate metric, the sorted
monthly buckets, the scoring outputs and the loan recommendation. -/
theorem C8_row_order_invariance (f : String) (hD hT hA : Bool)
    (rows rows' : List RawRow) (h : List.Perm rows rows') :
    analyze ⟨f, ⟨hD, hT, hA, rows⟩⟩ = analyze ⟨f, ⟨hD, hT, hA, rows'⟩⟩ :=
  analyze_rows_perm f hD hT hA h

/-- C8 witness: swapping two concrete rows leaves the response unchanged. -/
theorem C8_row_order_invariance_witness :
    analyze ⟨"ledger.csv", ⟨true, true, true, [rowA, rowB]⟩⟩
      = analyze ⟨"ledger.csv", ⟨true, true, true, [rowB, rowA]⟩⟩ :=
  C8_row_order_invariance "ledger.csv" true true true [rowA, rowB] [rowB, rowA]
    (List.Perm.swap rowB rowA [])

/-- C5: the monthly cashflow list has exactly one bucket per distinct month
key occurring among the transactions (of any `type`), in strictly ascending
month order; a month all of whose transactions have unrecognized type still
appears, with `income = 0`, `expense = 0`, `cashflow = 0`. -/
theorem C5_monthly_buckets (txs : List Tx) :
    List.Sorted (· < ·) ((analyzeTxs txs).monthly_cashflow.map Bucket.month) ∧
    (∀ m : ℕ, m ∈ (analyzeTxs txs).monthly_cashflow.map Bucket.month ↔
      ∃ t ∈ txs, t.month = m) ∧
    (∀ b ∈ (analyzeTxs txs).monthly_cashflow,
      (∀ t ∈ txs, t.month = b.month → t.type ≠ "income" ∧ t.type ≠ "expense") →
      b.income = 0 ∧ b.expense = 0 ∧ b.cashflow = 0) := by
  have hmap : (analyzeTxs txs).monthly_cashflow.map Bucket.month = monthsOf txs := by
    show (monthlyCashflow txs).map Bucket.month = monthsOf txs
    unfold monthlyCashflow
    rw [List.map_map]
    exact List.map_id _
  refine ⟨?_, ?_, ?_⟩
  · rw [hmap]
    exact monthsOf_sorted_lt txs
  · intro m
    rw [hmap]
    exact mem_monthsOf
  · intro b hb hnone
    rcases List.mem_map.mp hb with ⟨m, _, rfl⟩
    have hI : bucketIncome txs m = 0 := by
      apply sumAmounts_eq_zero
      intro t ht
      by_cases h1 : t.month = m
      · have h2 := (hnone t ht h1).1
        simp [beq_eq_false_iff_ne.mpr h2]
      · simp [beq_eq_false_iff_ne.mpr h1]
    have hE : bucketExpense txs m = 0 := by
      apply sumAmounts_eq_zero
      intro t ht
      by_cases h1 : t.month = m
      · have h2 := (hnone t ht h1).2
        simp [beq_eq_false_iff_ne.mpr h2]
      · simp [beq_eq_false_iff_ne.mpr h1]
    refine ⟨hI, hE, ?_⟩
    show bucketIncome txs m - bucketExpense txs m = 0
    rw [hI, hE, sub_zero]

/-- C5 witness: in `batchMix`, the month `2023-12` holds only a `refund`
transaction; its bucket is present with all-zero amounts. -/
theorem C5_monthly_buckets_witness :
    mkBucket batchMix 202312 ∈ (analyzeTxs batchMix).monthly_cashflow ∧
    (mkBucket batchMix 202312).income = 0 ∧
    (mkBucket batchMix 202312).expense = 0 ∧
    (mkBucket batchMix 202312).cashflow = 0 := by
  have hms : monthsOf batchMix = [202312, 202401] := by
    simp [monthsOf, batchMix, List.dedup, List.pwFilter, List.insertionSort,
      List.orderedInsert]
  have hb : mkBucket batchMix 202312 ∈ (analyzeTxs batchMix).monthly_cashflow := by
    show mkBucket batchMix 202312 ∈ (monthsOf batchMix).map (mkBucket batchMix)
    rw [hms]
    exact List.mem_map.mpr ⟨202312, List.mem_cons_self _ _, rfl⟩
  have hnone : ∀ t ∈ batchMix, t.month = (mkBucket batchMix 202312).month →
      t.type ≠ "income" ∧ t.type ≠ "expense" := by
    intro t ht hm
    have hm' : t.month = 202312 := hm
    have ht' : t = ({ month := 202401, type := "income", amount := 10 } : Tx)
        ∨ t = { month := 202312, type := "refund", amount := 7 } := by
      simpa [batchMix] using ht
    rcases ht' with rfl | rfl
    · norm_num at hm'
    · exact ⟨by decide, by decide⟩
  exact ⟨hb, (C5_monthly_buckets batchMix).2.2 _ hb hnone⟩

/-- C6: the recommended loan amount is `0` when eligibility is `NO`, equals
`int(average_monthly_profit * multiplier)` otherwise, and is never
negative. -/
theorem C6_recommended_amount (txs : List Tx) :
    0 ≤ (analyzeTxs txs).loan_recommendation.recommended_amount ∧
    ((analyzeTxs txs).loan_recommendation.eligible = "NO" →
      (analyzeTxs txs).loan_recommendation.recommended_amount = 0) ∧
    ((analyzeTxs txs).loan_recommendation.eligible ≠ "NO" →
      (analyzeTxs txs).loan_recommendation.recommended_amount
        = pyInt (netProfit txs / ((max (monthlyCashflow txs).length 1 : ℕ) : ℚ)
            * ((multiplier (risk (netProfit txs) (profitMargin txs)) : ℕ) : ℚ))) := by
  have hrec : (analyzeTxs txs).loan_recommendation.recommended_amount
      = if eligibility (credit (netProfit txs) (profitMargin txs)) ≠ "NO"
        then pyInt (netProfit txs / ((max (monthlyCashflow txs).length 1 : ℕ) : ℚ)
            * ((multiplier (risk (netProfit txs) (profitMargin txs)) : ℕ) : ℚ))
        else 0 := rfl
  have helig : (analyzeTxs txs).loan_recommendation.eligible
      = eligibility (credit (netProfit txs) (profitMargin txs)) := rfl
  refine ⟨?_, ?_, ?_⟩
  · rw [hrec]
    split_ifs with hne
    · have hnp : 0 < netProfit txs := netProfit_pos_of_not_no hne
      have hden : (0 : ℚ) < ((max (monthlyCashflow txs).length 1 : ℕ) : ℚ) := by
        have : 0 < max (monthlyCashflow txs).length 1 := by omega
        exact_mod_cast this
      have hmul : (0 : ℚ)
          < ((multiplier (risk (netProfit txs) (profitMargin txs)) : ℕ) : ℚ) := by
        have := multiplier_pos (risk (netProfit txs) (profitMargin txs))
        exact_mod_cast this
      have hq : (0 : ℚ) ≤ netProfit txs / ((max (monthlyCashflow txs).length 1 : ℕ) : ℚ)
          * ((multiplier (risk (netProfit txs) (profitMargin txs)) : ℕ) : ℚ) :=
        le_of_lt (mul_pos (div_pos hnp hden) hmul)
      unfold pyInt
      rw [if_pos hq]
      exact Int.floor_nonneg.mpr hq
    · exact le_refl 0
  · intro h
    rw [helig] at h
    rw [hrec, if_neg (by simp [h])]
  · intro h
    rw [helig] at h
    rw [hrec, if_pos h]

/-- C6 witness: the negative-profit batch is not eligible and gets amount
`0`. -/
theorem C6_recommended_amount_witness :
    (analyzeTxs batchNeg).loan_recommendation.eligible = "NO" ∧
    (analyzeTxs batchNeg).loan_recommendation.recommended_amount = 0 := by
  have he : (analyzeTxs batchNeg).loan_recommendation.eligible = "NO" := by
    show eligibility (credit (netProfit batchNeg) (profitMargin batchNeg)) = "NO"
    have h1 : netProfit batchNeg = -50 := by
      simp [netProfit, totalIncome, totalExpense, sumAmounts, batchNeg, List.filter]
    have h2 : profitMargin batchNeg = 0 := by
      simp [profitMargin, totalIncome, sumAmounts, batchNeg, List.filter]
    rw [h1, h2]
    norm_num [credit, eligibility]
  exact ⟨he, (C6_recommended_amount batchNeg).2.1 he⟩

/-- C9: risk is `HIGH` exactly when `net_profit ≤ 0`, and a HIGH-risk batch
gets credit 50, eligibility `NO` and a recommended amount of `0`. -/
theorem C9_high_risk_no_loan (txs : List Tx) :
    ((analyzeTxs txs).loan_recommendation.risk_level = "HIGH" ↔
      (analyzeTxs txs).net_profit ≤ 0) ∧
    ((analyzeTxs txs).loan_recommendation.risk_level = "HIGH" →
      (analyzeTxs txs).credit_score = 50 ∧
      (analyzeTxs txs).loan_recommendation.eligible = "NO" ∧
      (analyzeTxs txs).loan_recommendation.recommended_amount = 0) := by
  have hrisk : (analyzeTxs txs).loan_recommendation.risk_level
      = risk (netProfit txs) (profitMargin txs) := rfl
  have hiff : risk (netProfit txs) (profitMargin txs) = "HIGH" ↔ netProfit txs ≤ 0 := by
    unfold risk
    split_ifs with h1 h2 <;> simp [h1]
  constructor
  · rw [hrisk]
    exact hiff
  · intro hh
    have hnp : netProfit txs ≤ 0 := hiff.mp (hrisk ▸ hh)
    have hpm : ¬10 < profitMargin txs := by
      have := profitMargin_nonpos_of_netProfit_nonpos hnp
      linarith
    have hcred : credit (netProfit txs) (profitMargin txs) = 50 := by
      rw [credit_eq, if_neg (not_lt.mpr hnp), if_neg hpm]
    have he : eligibility (credit (netProfit txs) (profitMargin txs)) = "NO" := by
      rw [hcred]
      rfl
    refine ⟨hcred, he, ?_⟩
    have hrec : (analyzeTxs txs).loan_recommendation.recommended_amount
        = if eligibility (credit (netProfit txs) (profitMargin txs)) ≠ "NO"
          then pyInt (netProfit txs / ((max (monthlyCashflow txs).length 1 : ℕ) : ℚ)
              * ((multiplier (risk (netProfit txs) (profitMargin txs)) : ℕ) : ℚ))
          else 0 := rfl
    rw [hrec, if_neg (by simp [he])]

/-- C9 witness: the negative-profit batch is HIGH risk with credit 50, no
eligibility and amount `0`. -/
theorem C9_high_risk_no_loan_witness :
    (analyzeTxs batchNeg).loan_recommendation.risk_level = "HIGH" ∧
    (analyzeTxs batchNeg).credit_score = 50 ∧
    (analyzeTxs batchNeg).loan_recommendation.eligible = "NO" ∧
    (analyzeTxs batchNeg).loan_recommendation.recommended_amount = 0 := by
  have hh : (analyzeTxs batchNeg).loan_recommendation.risk_level = "HIGH" := by
    show risk (netProfit batchNeg) (profitMargin batchNeg) = "HIGH"
    have h1 : netProfit batchNeg = -50 := by
      simp [netProfit, totalIncome, totalExpense, sumAmounts, batchNeg, List.filter]
    rw [h1]
    norm_num [risk]
  have h := (C9_high_risk_no_loan batchNeg).2 hh
  exact ⟨hh, h.1, h.2.1, h.2.2⟩

/-- C10: the credit score only takes the values 50, 70, 85 (the margin
bonus implies the profit bonus, so 65 is unreachable and the cap at 100
never binds), and eligibility is `YES` exactly when the profit margin
exceeds 10. -/
theorem C10_credit_reachable_values (txs : List Tx) :
    ((analyzeTxs txs).credit_score = 50 ∨ (analyzeTxs txs).credit_score = 70 ∨
      (analyzeTxs txs).credit_score = 85) ∧
    (10 < (analyzeTxs txs).profit_margin_percent → 0 < (analyzeTxs txs).net_profit) ∧
    ((analyzeTxs txs).loan_recommendation.eligible = "YES" ↔
      10 < (analyzeTxs txs).profit_margin_percent) := by
  have himp : 10 < profitMargin txs → 0 < netProfit txs :=
    netProfit_pos_of_margin_gt_ten
  refine ⟨credit_cases _ _ himp, himp, ?_⟩
  show eligibility (credit (netProfit txs) (profitMargin txs)) = "YES"
      ↔ 10 < profitMargin txs
  constructor
  · intro h
    by_contra hc
    have hlt : credit (netProfit txs) (profitMargin txs) < 75 := by
      rw [credit_eq, if_neg hc]
      split_ifs <;> omega
    unfold eligibility at h
    rw [if_neg (by omega)] at h
    split_ifs at h <;> simp at h
  · intro h
    have hnp := himp h
    have h85 : credit (netProfit txs) (profitMargin txs) = 85 := by
      rw [credit_eq, if_pos hnp, if_pos h]
    rw [h85]
    rfl

/-- C10 witness: the all-income batch has margin `100 > 10`, hence positive
net profit. -/
theorem C10_credit_reachable_values_witness :
    10 < (analyzeTxs batchPos).profit_margin_percent ∧
    0 < (analyzeTxs batchPos).net_profit := by
  have hm : 10 < (analyzeTxs batchPos).profit_margin_percent := by
    show 10 < profitMargin batchPos
    have h1 : totalIncome batchPos = 100 := by
      simp [totalIncome, sumAmounts, batchPos, List.filter]
    have h2 : netProfit batchPos = 100 := by
      simp [netProfit, totalIncome, totalExpense, sumAmounts, batchPos, List.filter]
    unfold profitMargin
    rw [h1, h2, if_pos (by norm_num)]
    norm_num [round2, roundHalfEven]
  exact ⟨hm, (C10_credit_reachable_values batchPos).2.1 hm⟩

end SME
